import Mathlib

/-!
# Verification of the ChefByte backend against its specification

Shallow embedding of `backend/app.py` and `backend/database.py`.

The backend is a Flask application.  The parts modelled here are:

* `safe_extract_text_from_response` (app.py lines 98-157): the Response
  Normalizer.  Python's dynamic values are modelled by `PyVal`, and the
  Python exception channel is made explicit with `Except PyExc`.
* the JSON-protocol classifier inside the `/api/chat` handler
  (app.py lines 275-298), together with a model of `json.loads`.
* `validate_and_trim_str` (app.py lines 160-165).
* the history-replay loop of `/api/chat` (app.py lines 196-204).
* the `Database` wrapper (database.py), including the pymongo behaviour
  that truth-value testing a `Collection` raises `NotImplementedError`.
* the `/api/chat` handler itself (app.py lines 179-302), as a function
  from the request, environment and a provider oracle to an HTTP status,
  a body, and the ordered list of store/provider operations performed.
-/

set_option linter.unusedVariables false

namespace ChefByte

/-! ## Python dynamic values

`PyVal` models the Python values that can reach the Response Normalizer:
`None`, booleans, ints, strings, lists (also standing for tuples), dicts
with string keys, and arbitrary SDK objects.

For `vObj`, `attrs` maps attribute names to either `some v` (the attribute
is present with value `v`) or `none` (accessing the attribute raises a
non-AttributeError exception, modelling a malformed/lazy SDK property;
such an exception propagates through `hasattr`/three-argument `getattr`).
`strFn` is the result of `str(object)`: `some s` yields `s`,
`none` means `__str__` raises.  Floats are not modelled: the backend never
produces one on the paths verified here. -/

inductive PyExc where
  | attributeError
  | typeError
  | keyError
  | indexError
  | valueError
  | notImplementedError
deriving DecidableEq

inductive PyVal where
  | vNone
  | vBool (b : Bool)
  | vInt (n : Int)
  | vStr (s : String)
  | vList (items : List PyVal)
  | vDict (entries : List (String × PyVal))
  | vObj (attrs : List (String × Option PyVal)) (strFn : Option String)

/-- Result of looking an attribute up on a Python value. -/
inductive AttrResult where
  | absent
  | found (v : PyVal)
  | raises

/-- `getattr`-style attribute lookup.  Built-in values (`None`, numbers,
strings, lists, dicts) have none of the attributes probed by the
normalizer (`text`, `candidates`, `output`, `message`, `content`). -/
def attrOf (v : PyVal) (name : String) : AttrResult :=
  match v with
  | .vObj attrs _ =>
      match attrs.lookup name with
      | none => .absent
      | some none => .raises
      | some (some w) => .found w
  | _ => .absent

/-- `hasattr(v, name)`: `False` on a missing attribute, but an exception
other than `AttributeError` raised by the attribute propagates. -/
def pyHasattr (v : PyVal) (name : String) : Except PyExc Bool :=
  match attrOf v name with
  | .absent => .ok false
  | .found _ => .ok true
  | .raises => .error .valueError

/-- Plain attribute access `v.name`: raises `AttributeError` when absent. -/
def pyAttr (v : PyVal) (name : String) : Except PyExc PyVal :=
  match attrOf v name with
  | .absent => .error .attributeError
  | .found w => .ok w
  | .raises => .error .valueError

/-- `getattr(v, name, default)`: returns `default` when the attribute is
absent; a non-AttributeError exception still propagates. -/
def pyGetattrD (v : PyVal) (name : String) (default : PyVal) :
    Except PyExc PyVal :=
  match attrOf v name with
  | .absent => .ok default
  | .found w => .ok w
  | .raises => .error .valueError

/-- Python truthiness of the modelled values (default objects are truthy). -/
def pyTruthy : PyVal → Bool
  | .vNone => false
  | .vBool b => b
  | .vInt n => n != 0
  | .vStr s => s != ""
  | .vList items => !items.isEmpty
  | .vDict entries => !entries.isEmpty
  | .vObj _ _ => true

/-- `len(v)`: defined for strings, lists and dicts; `TypeError` otherwise. -/
def pyLen : PyVal → Except PyExc Nat
  | .vStr s => .ok s.length
  | .vList items => .ok items.length
  | .vDict entries => .ok entries.length
  | _ => .error .typeError

/-- `v[0]`: first element of a list, one-character string of a string,
`KeyError` for a dict with string keys, `TypeError` otherwise. -/
def pyIndex0 : PyVal → Except PyExc PyVal
  | .vList [] => .error .indexError
  | .vList (x :: _) => .ok x
  | .vStr s =>
      match s.data with
      | [] => .error .indexError
      | c :: _ => .ok (.vStr (String.mk [c]))
  | .vDict _ => .error .keyError
  | _ => .error .typeError

/-- `d.get(key)` on a dict's entry list (`None` when the key is absent). -/
def pyDictGet (entries : List (String × PyVal)) (key : String) : PyVal :=
  (entries.lookup key).getD .vNone

/-- `v.get(key)` on an arbitrary value: only dicts support it; on any
other value the `.get` attribute access raises. -/
def pyCallGet (v : PyVal) (key : String) : Except PyExc PyVal :=
  match v with
  | .vDict entries => .ok (pyDictGet entries key)
  | _ => .error .attributeError

/-- Double-quote and escape a string the way `json.dumps` does. -/
def jsonQuote (s : String) : String :=
  "\"" ++ String.join (s.data.map (fun c =>
    if c = '"' then "\\\""
    else if c = '\\' then "\\\\"
    else String.mk [c])) ++ "\""

mutual

/-- `json.dumps(v)`: serializes `None`/bools/ints/strings/lists/dicts;
raises `TypeError` on any other object. -/
def jsonDumps : PyVal → Except PyExc String
  | .vNone => .ok "null"
  | .vBool b => .ok (if b then "true" else "false")
  | .vInt n => .ok (toString n)
  | .vStr s => .ok (jsonQuote s)
  | .vList items => do
      let ps ← jsonDumpsList items
      .ok ("[" ++ String.intercalate ", " ps ++ "]")
  | .vDict entries => do
      let ps ← jsonDumpsEntries entries
      .ok ("\x7b" ++ String.intercalate ", " ps ++ "\x7d")
  | .vObj _ _ => .error .typeError

def jsonDumpsList : List PyVal → Except PyExc (List String)
  | [] => .ok []
  | v :: vs => do
      let s ← jsonDumps v
      let ss ← jsonDumpsList vs
      .ok (s :: ss)

def jsonDumpsEntries : List (String × PyVal) → Except PyExc (List String)
  | [] => .ok []
  | (k, v) :: es => do
      let s ← jsonDumps v
      let ss ← jsonDumpsEntries es
      .ok ((jsonQuote k ++ ": " ++ s) :: ss)

end

mutual

/-- Python `repr` of the modelled values.  Default object `__repr__`
never raises, so this is total. -/
def pyRepr : PyVal → String
  | .vNone => "None"
  | .vBool b => if b then "True" else "False"
  | .vInt n => toString n
  | .vStr s => "\x27" ++ s ++ "\x27"
  | .vList items => "[" ++ String.intercalate ", " (pyReprList items) ++ "]"
  | .vDict entries =>
      "\x7b" ++ String.intercalate ", " (pyReprEntries entries) ++ "\x7d"
  | .vObj _ _ => "<object>"

def pyReprList : List PyVal → List String
  | [] => []
  | v :: vs => pyRepr v :: pyReprList vs

def pyReprEntries : List (String × PyVal) → List String
  | [] => []
  | (k, v) :: es => ("\x27" ++ k ++ "\x27: " ++ pyRepr v) :: pyReprEntries es

end

/-- `str(v)`: identity on strings, `repr` on the other built-ins, and the
object's `__str__` (which may raise) on SDK objects. -/
def pyStr : PyVal → Except PyExc String
  | .vStr s => .ok s
  | .vObj _ strFn =>
      match strFn with
      | some s => .ok s
      | none => .error .valueError
  | v => .ok (pyRepr v)

/-! ## The Response Normalizer — `safe_extract_text_from_response`

Each `try:` block of app.py lines 98-157 becomes an `Except` computation:
`.ok (some v)` models `return v`, `.ok none` models falling through to the
next block, and `.error e` models an uncaught exception inside the block
(caught by the block's `except`). -/

/-- app.py lines 106-111: `if hasattr(resp, "text") and resp.text is not
None: return resp.text` (the attribute is deterministic here, so the
re-evaluation of `resp.text` in the `return` is collapsed). -/
def extractStrategy1 (resp : PyVal) : Except PyExc (Option PyVal) := do
  let hb ← pyHasattr resp "text"
  if hb then
    let t ← pyAttr resp "text"
    match t with
    | .vNone => pure none
    | _ => pure (some t)
  else
    pure none

/-- `txt = getattr(out, "text", None) or (out.get("text") if
isinstance(out, dict) else None); if txt: return txt` — the shared tail of
app.py lines 137-146. -/
def extractTextAttrOrGet (out : PyVal) : Except PyExc (Option PyVal) := do
  let t1 ← pyGetattrD out "text" .vNone
  let txt :=
    if pyTruthy t1 then t1
    else
      match out with
      | .vDict ds => pyDictGet ds "text"
      | _ => .vNone
  if pyTruthy txt then pure (some txt) else pure none

/-- app.py lines 113-148: the nested-candidates strategy. -/
def extractStrategy2 (resp : PyVal) : Except PyExc (Option PyVal) := do
  -- cands = getattr(resp, "candidates", None)
  --         or (resp.get("candidates") if isinstance(resp, dict) else None)
  let g ← pyGetattrD resp "candidates" .vNone
  let cands :=
    if pyTruthy g then g
    else
      match resp with
      | .vDict es => pyDictGet es "candidates"
      | _ => .vNone
  -- if cands and len(cands) > 0:
  if pyTruthy cands then
    let n ← pyLen cands
    if n > 0 then
      let first ← pyIndex0 cands
      -- out = first.get("output") or first.get("message") or None
      --    /  getattr(first, "output", None) or getattr(first, "message", None)
      let out ←
        match first with
        | .vDict es =>
            let o1 := pyDictGet es "output"
            if pyTruthy o1 then pure o1
            else
              let o2 := pyDictGet es "message"
              if pyTruthy o2 then pure o2 else pure PyVal.vNone
        | _ => do
            let o1 ← pyGetattrD first "output" .vNone
            if pyTruthy o1 then pure o1
            else pyGetattrD first "message" .vNone
      if pyTruthy out then
        match out with
        | .vList items =>
            -- isinstance(out, (list, tuple)) and len(out) > 0
            if items.length > 0 then
              let piece ← pyIndex0 (.vList items)
              match piece with
              | .vDict pes =>
                  -- cont = piece.get("content")
                  let cont := pyDictGet pes "content"
                  -- if cont and isinstance(cont, (list, tuple)) and len(cont) > 0:
                  if pyTruthy cont then
                    match cont with
                    | .vList cs =>
                        if cs.length > 0 then do
                          let c0 ← pyIndex0 (.vList cs)
                          -- text = cont[0].get("text")  (raises on a non-dict)
                          let text ← pyCallGet c0 "text"
                          if pyTruthy text then pure (some text) else pure none
                        else pure none
                    | _ => pure none
                  else pure none
              | _ => do
                  -- cont = getattr(piece, "content", None)
                  let cont ← pyGetattrD piece "content" .vNone
                  if pyTruthy cont then
                    match cont with
                    | .vList cs =>
                        if cs.length > 0 then do
                          let c0 ← pyIndex0 (.vList cs)
                          extractTextAttrOrGet c0
                        else pure none
                    | _ => pure none
                  else pure none
            else
              -- message-like single object
              extractTextAttrOrGet out
        | _ => extractTextAttrOrGet out
      else pure none
    else pure none
  else pure none

/-- app.py lines 151-155: `json.dumps(resp)` for dicts and lists, else
`str(resp)` (the enclosing `except` is handled by the caller). -/
def extractFinal (resp : PyVal) : Except PyExc PyVal :=
  match resp with
  | .vDict _ => (jsonDumps resp).map .vStr
  | .vList _ => (jsonDumps resp).map .vStr
  | _ => (pyStr resp).map .vStr

/-- app.py lines 98-157.  Each strategy's exceptions are swallowed and the
next strategy is attempted; the final block's `except` returns `""`. -/
def safe_extract_text_from_response (resp : PyVal) : Except PyExc PyVal :=
  match extractStrategy1 resp with
  | .ok (some v) => .ok v
  | _ =>
      match extractStrategy2 resp with
      | .ok (some v) => .ok v
      | _ =>
          match extractFinal resp with
          | .ok v => .ok v
          | .error _ => .ok (.vStr "")

/-- Claim C1: the Response Normalizer never raises, for any input object
(including `None`, empty values and malformed structured objects whose
attribute accesses or `__str__` raise); and whenever no strategy can
extract any text — the first two strategies do not return and the final
serialization/stringification itself raises — it returns `""`. -/
theorem C1_normalizer_never_raises (resp : PyVal) :
    (∃ v, safe_extract_text_from_response resp = .ok v) ∧
    ((∀ v, extractStrategy1 resp ≠ .ok (some v)) →
      (∀ v, extractStrategy2 resp ≠ .ok (some v)) →
      (∀ v, extractFinal resp ≠ .ok v) →
      safe_extract_text_from_response resp = .ok (.vStr "")) := by
  constructor
  · unfold safe_extract_text_from_response
    rcases h1 : extractStrategy1 resp with e1 | o1
    · rcases h2 : extractStrategy2 resp with e2 | o2
      · rcases h3 : extractFinal resp with e3 | v3
        · exact ⟨.vStr "", rfl⟩
        · exact ⟨v3, rfl⟩
      · rcases o2 with _ | v2
        · rcases h3 : extractFinal resp with e3 | v3
          · exact ⟨.vStr "", rfl⟩
          · exact ⟨v3, rfl⟩
        · exact ⟨v2, rfl⟩
    · rcases o1 with _ | v1
      · rcases h2 : extractStrategy2 resp with e2 | o2
        · rcases h3 : extractFinal resp with e3 | v3
          · exact ⟨.vStr "", rfl⟩
          · exact ⟨v3, rfl⟩
        · rcases o2 with _ | v2
          · rcases h3 : extractFinal resp with e3 | v3
            · exact ⟨.vStr "", rfl⟩
            · exact ⟨v3, rfl⟩
          · exact ⟨v2, rfl⟩
      · exact ⟨v1, rfl⟩
  · intro hs1 hs2 hf
    unfold safe_extract_text_from_response
    rcases h1 : extractStrategy1 resp with e1 | o1
    · rcases h2 : extractStrategy2 resp with e2 | o2
      · rcases h3 : extractFinal resp with e3 | v3
        · rfl
        · exact absurd h3 (hf v3)
      · rcases o2 with _ | v2
        · rcases h3 : extractFinal resp with e3 | v3
          · rfl
          · exact absurd h3 (hf v3)
        · exact absurd h2 (hs2 v2)
    · rcases o1 with _ | v1
      · rcases h2 : extractStrategy2 resp with e2 | o2
        · rcases h3 : extractFinal resp with e3 | v3
          · rfl
          · exact absurd h3 (hf v3)
        · rcases o2 with _ | v2
          · rcases h3 : extractFinal resp with e3 | v3
            · rfl
            · exact absurd h3 (hf v3)
          · exact absurd h2 (hs2 v2)
      · exact absurd h1 (hs1 v1)

/-- Witness for C1: a malformed SDK object with no usable attribute and a
raising `__str__` makes every strategy fail, and the normalizer returns
`""` without raising. -/
theorem C1_normalizer_never_raises_witness :
    safe_extract_text_from_response (.vObj [] none) = .ok (.vStr "") := by
  refine (C1_normalizer_never_raises (.vObj [] none)).2 ?_ ?_ ?_
  · intro v h
    rw [show extractStrategy1 (.vObj [] none) = .ok none from rfl] at h
    exact Option.noConfusion (Except.ok.inj h)
  · intro v h
    rw [show extractStrategy2 (.vObj [] none) = .ok none from rfl] at h
    exact Option.noConfusion (Except.ok.inj h)
  · intro v h
    rw [show extractFinal (.vObj [] none) = .error .valueError from rfl] at h
    exact Except.noConfusion h

/-! ## JSON values and a model of `json.loads`

`JVal` models the Python value returned by `json.loads`, except that JSON
`null` is kept as an explicit constructor (`json.loads("null")` actually
returns Python `None`; the conflation is performed by `pyParsed` below,
exactly where the handler performs it).  Numeric literals are kept as
their source text: the handler never inspects numeric values. -/

inductive JVal where
  | jnull
  | jbool (b : Bool)
  | jnum (raw : String)
  | jstr (s : String)
  | jarr (items : List JVal)
  | jobj (fields : List (String × JVal))

def isJsonWs (c : Char) : Bool :=
  c = ' ' || c = '\t' || c = '\n' || c = '\r'

def skipWs : List Char → List Char
  | [] => []
  | c :: cs => if isJsonWs c then skipWs cs else c :: cs

def hexVal (c : Char) : Option Nat :=
  if '0' ≤ c ∧ c ≤ '9' then some (c.toNat - '0'.toNat)
  else if 'a' ≤ c ∧ c ≤ 'f' then some (c.toNat - 'a'.toNat + 10)
  else if 'A' ≤ c ∧ c ≤ 'F' then some (c.toNat - 'A'.toNat + 10)
  else none

/-- Body of a JSON string literal, after the opening quote.  Handles the
JSON escapes; `\uXXXX` is decoded as a single code point (surrogate-pair
recombination is not modelled).  Unescaped control characters are
rejected, as in strict-mode `json.loads`. -/
def parseStringBody (acc : List Char) : List Char → Option (String × List Char)
  | [] => none
  | '"' :: rest => some (String.mk acc.reverse, rest)
  | '\\' :: '"' :: rest => parseStringBody ('"' :: acc) rest
  | '\\' :: '\\' :: rest => parseStringBody ('\\' :: acc) rest
  | '\\' :: '/' :: rest => parseStringBody ('/' :: acc) rest
  | '\\' :: 'b' :: rest => parseStringBody ('\x08' :: acc) rest
  | '\\' :: 'f' :: rest => parseStringBody ('\x0c' :: acc) rest
  | '\\' :: 'n' :: rest => parseStringBody ('\n' :: acc) rest
  | '\\' :: 'r' :: rest => parseStringBody ('\r' :: acc) rest
  | '\\' :: 't' :: rest => parseStringBody ('\t' :: acc) rest
  | '\\' :: 'u' :: h1 :: h2 :: h3 :: h4 :: rest =>
      match hexVal h1, hexVal h2, hexVal h3, hexVal h4 with
      | some a, some b, some c, some d =>
          parseStringBody (Char.ofNat (((a * 16 + b) * 16 + c) * 16 + d) :: acc) rest
      | _, _, _, _ => none
  | '\\' :: _ => none
  | c :: rest => if c.toNat < 32 then none else parseStringBody (c :: acc) rest

def takeDigits : List Char → List Char × List Char
  | [] => ([], [])
  | c :: cs =>
      if c.isDigit then
        let (ds, rest) := takeDigits cs
        (c :: ds, rest)
      else ([], c :: cs)

def parseIntPart : List Char → Option (List Char × List Char)
  | [] => none
  | '0' :: cs => some (['0'], cs)
  | c :: cs =>
      if c.isDigit then
        let (ds, rest) := takeDigits cs
        some (c :: ds, rest)
      else none

def parseFrac : List Char → Option (List Char × List Char)
  | '.' :: cs =>
      let (ds, rest) := takeDigits cs
      if ds.isEmpty then none else some ('.' :: ds, rest)
  | cs => some ([], cs)

def parseExp : List Char → Option (List Char × List Char)
  | [] => some ([], [])
  | c :: cs =>
      if c = 'e' ∨ c = 'E' then
        match cs with
        | [] => none
        | s :: cs' =>
            if s = '+' ∨ s = '-' then
              let (ds, rest) := takeDigits cs'
              if ds.isEmpty then none else some (c :: s :: ds, rest)
            else
              let (ds, rest) := takeDigits (s :: cs')
              if ds.isEmpty then none else some (c :: ds, rest)
      else some ([], c :: cs)

/-- A JSON numeric literal (strict grammar), returned as its text. -/
def parseNumberLit (cs : List Char) : Option (String × List Char) :=
  let (sign, cs0) :=
    match cs with
    | '-' :: r => (['-'], r)
    | r => (([] : List Char), r)
  match parseIntPart cs0 with
  | none => none
  | some (ip, cs1) =>
      match parseFrac cs1 with
      | none => none
      | some (fp, cs2) =>
          match parseExp cs2 with
          | none => none
          | some (ep, cs3) => some (String.mk (sign ++ ip ++ fp ++ ep), cs3)

/-- Python `dict` assignment on an association list: a duplicate key
overwrites the previous value in place, as in `json.loads`. -/
def dictInsert (fields : List (String × JVal)) (k : String) (v : JVal) :
    List (String × JVal) :=
  match fields with
  | [] => [(k, v)]
  | (k0, v0) :: rest =>
      if k0 = k then (k0, v) :: rest else (k0, v0) :: dictInsert rest k v

mutual

/-- Recursive-descent JSON value parser (fuel-indexed; the fuel passed by
`jsonLoads` is always sufficient, since every recursive call follows the
consumption of at least one input character every other step).  Accepts
`NaN`/`Infinity`/`-Infinity`, as Python's `json.loads` does by default. -/
def parseValue : Nat → List Char → Option (JVal × List Char)
  | 0, _ => none
  | Nat.succ fuel, cs =>
      match skipWs cs with
      | 'n' :: 'u' :: 'l' :: 'l' :: rest => some (.jnull, rest)
      | 't' :: 'r' :: 'u' :: 'e' :: rest => some (.jbool true, rest)
      | 'f' :: 'a' :: 'l' :: 's' :: 'e' :: rest => some (.jbool false, rest)
      | 'N' :: 'a' :: 'N' :: rest => some (.jnum "NaN", rest)
      | 'I' :: 'n' :: 'f' :: 'i' :: 'n' :: 'i' :: 't' :: 'y' :: rest =>
          some (.jnum "Infinity", rest)
      | '-' :: 'I' :: 'n' :: 'f' :: 'i' :: 'n' :: 'i' :: 't' :: 'y' :: rest =>
          some (.jnum "-Infinity", rest)
      | '"' :: rest => (parseStringBody [] rest).map (fun p => (.jstr p.1, p.2))
      | '[' :: rest =>
          match skipWs rest with
          | ']' :: rest2 => some (.jarr [], rest2)
          | rest1 => parseArrayItems fuel rest1 []
      | '\x7b' :: rest =>
          match skipWs rest with
          | '\x7d' :: rest2 => some (.jobj [], rest2)
          | rest1 => parseObjectMembers fuel rest1 []
      | rest => (parseNumberLit rest).map (fun p => (.jnum p.1, p.2))

def parseArrayItems : Nat → List Char → List JVal → Option (JVal × List Char)
  | 0, _, _ => none
  | Nat.succ fuel, cs, acc =>
      match parseValue fuel cs with
      | none => none
      | some (v, rest) =>
          match skipWs rest with
          | ',' :: rest2 => parseArrayItems fuel rest2 (v :: acc)
          | ']' :: rest2 => some (.jarr (v :: acc).reverse, rest2)
          | _ => none

def parseObjectMembers : Nat → List Char → List (String × JVal) →
    Option (JVal × List Char)
  | 0, _, _ => none
  | Nat.succ fuel, cs, acc =>
      match skipWs cs with
      | '"' :: rest =>
          match parseStringBody [] rest with
          | none => none
          | some (k, rest1) =>
              match skipWs rest1 with
              | ':' :: rest2 =>
                  match parseValue fuel rest2 with
                  | none => none
                  | some (v, rest3) =>
                      match skipWs rest3 with
                      | ',' :: rest4 => parseObjectMembers fuel rest4 (dictInsert acc k v)
                      | '\x7d' :: rest4 => some (.jobj (dictInsert acc k v), rest4)
                      | _ => none
              | _ => none
      | _ => none

end

/-- `json.loads`: parse one JSON value and require only whitespace after
it, as the strict decoder does. -/
def jsonLoads (s : String) : Option JVal :=
  match parseValue (2 * s.length + 8) s.data with
  | some (v, rest) => if (skipWs rest).isEmpty then some v else none
  | none => none

/-- app.py lines 276-280: `parsed = json.loads(ai_text) if ai_text else
None`, with any exception giving `None`.  Note that `json.loads("null")`
returns Python `None`, so a parsed JSON `null` is indistinguishable from
a parse failure in `parsed`. -/
def pyParsed (aiText : String) : Option JVal :=
  if aiText = "" then none
  else
    match jsonLoads aiText with
    | some .jnull => none
    | some v => some v
    | none => none

/-! ## The Protocol Classifier — app.py lines 282-298 -/

/-- app.py line 290: the fixed apology for valid JSON of unknown shape. -/
def UNEXPECTED_FORMAT_MSG : String :=
  "I received an unexpected response format. Could you rephrase?"

/-- app.py line 298: the message of the empty/unparsable-response error. -/
def TROUBLE_MSG : String :=
  "I\x27m having trouble right now. Please try again in a moment."

/-- The five outcomes of app.py lines 282-298: the four classification
variants, plus the 500 reply produced when the normalized text is empty. -/
inductive ClassifiedResponse where
  | recipe (response : String) (recipe_data : JVal)
  | text (response : JVal)
  | unknownShape
  | plainFallback (response : String)
  | emptyResponse

/-- Python `==` between a decoded-JSON value and a string literal. -/
def isStrEq : Option JVal → String → Bool
  | some (.jstr s), t => s == t
  | _, _ => false

/-- app.py lines 282-298.  `parsed.get("type") == "recipe"` is true only
when the field holds exactly that string; `parsed.get("content", ai_text)`
falls back to the raw string only when the key is absent. -/
def classify (aiText : String) (parsed : Option JVal) : ClassifiedResponse :=
  match parsed with
  | some (.jobj fields) =>
      if isStrEq (fields.lookup "type") "recipe" then .recipe aiText (.jobj fields)
      else if isStrEq (fields.lookup "type") "text" then
        .text ((fields.lookup "content").getD (.jstr aiText))
      else .unknownShape
  | some _ => .unknownShape
  | none => if aiText = "" then .emptyResponse else .plainFallback aiText

/-- HTTP status of each outcome (app.py lines 283, 285, 290, 294, 298). -/
def statusOfClassified : ClassifiedResponse → Nat
  | .emptyResponse => 500
  | _ => 200

/-- The `response` field of the JSON body returned for each outcome. -/
def responseBody : ClassifiedResponse → JVal
  | .recipe r _ => .jstr r
  | .text v => v
  | .unknownShape => .jstr UNEXPECTED_FORMAT_MSG
  | .plainFallback r => .jstr r
  | .emptyResponse => .jstr TROUBLE_MSG

/-! ## `validate_and_trim_str` — app.py lines 160-165 -/

/-- Python `str.strip()` whitespace (ASCII part). -/
def isPyWs (c : Char) : Bool :=
  c = ' ' || c = '\t' || c = '\n' || c = '\r' || c = '\x0b' || c = '\x0c'

/-- Python `s.strip()`. -/
def pyStrip (s : String) : String :=
  String.mk (((s.data.dropWhile isPyWs).reverse.dropWhile isPyWs).reverse)

mutual

/-- Python `repr` of a decoded-JSON value (used inside `str` of
containers).  Numeric literals are reproduced as written, which matches
Python exactly for integers; a float's repr may normalize the literal. -/
def pyReprOfJVal : JVal → String
  | .jnull => "None"
  | .jbool b => if b then "True" else "False"
  | .jnum raw => raw
  | .jstr s => "\x27" ++ s ++ "\x27"
  | .jarr items => "[" ++ String.intercalate ", " (pyReprJList items) ++ "]"
  | .jobj fields =>
      "\x7b" ++ String.intercalate ", " (pyReprJFields fields) ++ "\x7d"

def pyReprJList : List JVal → List String
  | [] => []
  | v :: vs => pyReprOfJVal v :: pyReprJList vs

def pyReprJFields : List (String × JVal) → List String
  | [] => []
  | (k, v) :: fs => ("\x27" ++ k ++ "\x27: " ++ pyReprOfJVal v) :: pyReprJFields fs

end

/-- Python `str()` of a decoded-JSON value. -/
def pyStrOfJVal : JVal → String
  | .jstr s => s
  | v => pyReprOfJVal v

/-- app.py lines 160-165, applied to a JSON request field.  The argument
is `none` when the field is absent (Python `None`); a JSON `null` also
decodes to Python `None`.  Any other non-string value is coerced with
`str()` and stripped. -/
def validate_and_trim_str : Option JVal → String
  | none => ""
  | some .jnull => ""
  | some (.jstr s) => pyStrip s
  | some v => pyStrip (pyStrOfJVal v)

/-! ## Conversation turns and the provider-history mapping -/

/-- A stored conversation turn (`{role: ..., content: ...}`). -/
structure Turn where
  role : String
  content : String
deriving DecidableEq

/-- One `{text: ...}` part of a provider turn. -/
structure TextPart where
  text : String
deriving DecidableEq

/-- The provider-facing turn shape `{role, parts: [{text}]}`. -/
structure ProviderTurn where
  role : String
  parts : List TextPart
deriving DecidableEq

/-- app.py lines 199-204: the replay loop.  `system` turns are skipped,
`assistant` becomes `model`, and the content is passed through
`validate_and_trim_str` (which on a string is `str.strip()`) and wrapped
as a single text part. -/
def buildHistory (stored : List Turn) : List ProviderTurn :=
  stored.foldl
    (fun acc m =>
      if m.role = "system" then acc
      else
        acc ++ [⟨if m.role = "assistant" then "model" else m.role,
                 [⟨pyStrip m.content⟩]⟩])
    []

/-- app.py lines 209-214. -/
def SYSTEM_PROMPT : String :=
  "You are CookBot, a friendly and knowledgeable cooking assistant. " ++
  "When asked for a recipe, return a single valid JSON object with type:\x27recipe\x27 and the fields: " ++
  "title, description, ingredients, instructions, prep_time, cook_time, servings. " ++
  "For non-recipe questions, return \x7b\x27type\x27:\x27text\x27,\x27content\x27: \x27...\x27\x7d."

/-- app.py line 45 (default model identifier). -/
def MODEL_NAME : String := "gemini-2.5-flash"

/-! ## The `Database` wrapper — database.py

A constructed `Database` object holds either `None` collection slots
(`collsNone`: the MongoDB connection failed and the `except` branch of
`__init__` ran) or live pymongo collections (`collsLive`).  pymongo
`Collection.__bool__` raises `NotImplementedError` ("Collection objects
do not implement truth value testing or bool()"), so every method guard
of the form `if not self.conversations:` / `if not self.recipes:`
*raises* for a live collection and only behaves as an availability check
for `None` slots.  The code after those guards is therefore unreachable:
it is transcribed separately (`save_recipe_insert`) where needed. -/

/-- A saved recipe document (database.py lines 138-143). -/
structure RecipeRecord where
  recipe_id : String
  session_id : String
  recipe_data : JVal
  saved_at : Nat

/-- Python truthiness of a decoded-JSON value (numeric truthiness is
approximated on the zero literals; the backend only passes dicts here). -/
def jTruthy : JVal → Bool
  | .jnull => false
  | .jbool b => b
  | .jnum raw => !(raw = "0" || raw = "-0" || raw = "0.0" || raw = "-0.0")
  | .jstr s => s != ""
  | .jarr items => !items.isEmpty
  | .jobj fields => !fields.isEmpty

/-- The state of the two collection slots of a `Database` object. -/
inductive DbLevel where
  | collsNone
  | collsLive (convs : List (String × List Turn)) (recipes : List RecipeRecord)

namespace Database

/-- database.py lines 105-120.  `if not self.conversations:` returns
`None` for a `None` slot and raises `NotImplementedError` for a live
collection, so the `find_one` below the guard is unreachable. -/
def get_conversation (d : DbLevel) (session_id : String) :
    Except PyExc (Option (List Turn)) :=
  match d with
  | .collsNone => .ok none
  | .collsLive _ _ => .error .notImplementedError

/-- database.py lines 76-103.  Same guard: returns `False` for a `None`
slot, raises for a live collection; the upsert is unreachable. -/
def save_conversation (d : DbLevel) (session_id : String)
    (messages : List Turn) : Except PyExc Bool :=
  match d with
  | .collsNone => .ok false
  | .collsLive _ _ => .error .notImplementedError

/-- database.py lines 125-160.  Same guard: returns `None` for a `None`
slot, raises for a live collection; the insert/retry logic (transcribed
as `save_recipe_insert`) is unreachable. -/
def save_recipe (d : DbLevel) (session_id : String) (recipe_data : JVal)
    (gen : Nat → String) (now : Nat) : Except PyExc (Option String × DbLevel) :=
  match d with
  | .collsNone => .ok (none, d)
  | .collsLive _ _ => .error .notImplementedError

/-- database.py lines 162-181.  Same guard: returns `[]` for a `None`
slot, raises for a live collection; the find/sort is unreachable. -/
def get_user_recipes (d : DbLevel) (session_id : String) :
    Except PyExc (List RecipeRecord) :=
  match d with
  | .collsNone => .ok []
  | .collsLive _ _ => .error .notImplementedError

/-- database.py lines 132-157, transcribed in isolation: the parameter
guard, the `uuid4` insert against the unique `recipe_id` index (modelled
by the membership test), and on `DuplicateKeyError` exactly one retry
with a fresh identifier (`gen 1`), giving up if that also collides.
In `save_recipe` itself this code sits below the raising availability
guard and never runs. -/
def save_recipe_insert (recipes : List RecipeRecord) (session_id : String)
    (recipe_data : JVal) (gen : Nat → String) (now : Nat) :
    Option String × List RecipeRecord :=
  if session_id = "" || !jTruthy recipe_data then (none, recipes)
  else
    let recipe_id := gen 0
    if recipes.any (fun r => r.recipe_id == recipe_id) then
      let retry_id := gen 1
      if recipes.any (fun r => r.recipe_id == retry_id) then (none, recipes)
      else (some retry_id, recipes ++ [⟨retry_id, session_id, recipe_data, now⟩])
    else (some recipe_id, recipes ++ [⟨recipe_id, session_id, recipe_data, now⟩])

end Database

/-! ## The `/api/chat` handler — app.py lines 179-302

The provider SDK is an external collaborator; one request's interaction
with it is summarized by a `ProviderEvent` oracle: a failure at model
creation, at `start_chat`, at `send_message`, or success with the
response object already passed through the Response Normalizer (the
claims about the classifier quantify over this normalized string).
The handler returns the HTTP status, the response body, and the ordered
list of store/provider operations it performed. -/

inductive ProviderErr where
  | notFound
  | permissionDenied
  | other
deriving DecidableEq

inductive ProviderEvent where
  | createFail (e : ProviderErr)
  | startChatFail
  | sendFail (e : ProviderErr)
  | success (aiText : String)

/-- A store or provider operation performed by the handler. -/
inductive Effect where
  | getConversation (session_id : String)
  | saveConversation (session_id : String) (history : List Turn)
  | providerCreate
  | providerStartChat (history : List ProviderTurn)
  | providerSend (message : String)
deriving DecidableEq

inductive ChatBody where
  | err (msg : String)
  | errWithModels (msg : String)
  | classified (c : ClassifiedResponse) (session_id : String)

structure ChatOutput where
  status : Nat
  body : ChatBody
  effects : List Effect

/-- app.py lines 179-302.  `apiKeySet` is whether `GEMINI_API_KEY` is
present; `db` is `none` when the module-level `Database()` construction
itself raised (app.py lines 61-67) and the global `db` is `None`;
`freshSid` models `str(uuid.uuid4())`; `message`/`sessionIdField` are the
two JSON request fields (absent = `none`). -/
def chat (apiKeySet : Bool) (db : Option DbLevel) (freshSid : String)
    (pe : ProviderEvent) (message sessionIdField : Option JVal) : ChatOutput :=
  -- lines 184-186
  let user_message := validate_and_trim_str message
  let sidTrim := validate_and_trim_str sessionIdField
  let session_id := if sidTrim = "" then freshSid else sidTrim
  -- lines 188-190
  if user_message = "" then ⟨400, .err "Message cannot be empty", []⟩
  else
    -- lines 192-206: read prior history (any exception is caught and the
    -- history stays empty; with a live store `get_conversation` raises)
    let histPair : List Effect × List ProviderTurn :=
      match db with
      | none => ([], [])
      | some d =>
          match Database.get_conversation d session_id with
          | .ok conv => ([.getConversation session_id], buildHistory (conv.getD []))
          | .error _ => ([.getConversation session_id], [])
    -- lines 208-215
    let full_history : List ProviderTurn :=
      ⟨"user", [⟨SYSTEM_PROMPT⟩]⟩ :: histPair.2
    -- lines 218-220
    if !apiKeySet then
      ⟨500, .err "Server misconfigured: missing GEMINI_API_KEY", histPair.1⟩
    else
      match pe with
      -- lines 226-229
      | .createFail .notFound =>
          ⟨500, .errWithModels ("Model " ++ MODEL_NAME ++ " not available"),
            histPair.1 ++ [.providerCreate]⟩
      -- lines 230-232
      | .createFail .permissionDenied =>
          ⟨500, .err "Permission denied for model creation. Check API key and account permissions.",
            histPair.1 ++ [.providerCreate]⟩
      -- lines 233-236
      | .createFail .other =>
          ⟨500, .errWithModels "Failed to initialize model. See logs.",
            histPair.1 ++ [.providerCreate]⟩
      -- lines 239-243
      | .startChatFail =>
          ⟨500, .err "Failed to start chat session. Check model compatibility and SDK version.",
            histPair.1 ++ [.providerCreate, .providerStartChat full_history]⟩
      -- lines 247-250
      | .sendFail .notFound =>
          ⟨500, .errWithModels "Model cannot process chat with this SDK/account",
            histPair.1 ++ [.providerCreate, .providerStartChat full_history,
              .providerSend user_message]⟩
      -- lines 251-253
      | .sendFail .permissionDenied =>
          ⟨403, .err "API key permission denied. Please rotate key.",
            histPair.1 ++ [.providerCreate, .providerStartChat full_history,
              .providerSend user_message]⟩
      -- lines 254-256
      | .sendFail .other =>
          ⟨500, .err "Error generating response from model",
            histPair.1 ++ [.providerCreate, .providerStartChat full_history,
              .providerSend user_message]⟩
      | .success aiText =>
          -- lines 261-273: persist raw history (the `except` swallows the
          -- `NotImplementedError` raised by a live store's re-read, in
          -- which case `save_conversation` is never reached)
          let persistFx : List Effect :=
            match db with
            | none => []
            | some d =>
                match Database.get_conversation d session_id with
                | .ok conv =>
                    let existing := conv.getD []
                    [.getConversation session_id,
                     .saveConversation session_id
                       (existing ++ [⟨"user", user_message⟩, ⟨"assistant", aiText⟩])]
                | .error _ => [.getConversation session_id]
          -- lines 275-298
          let c := classify aiText (pyParsed aiText)
          ⟨statusOfClassified c, .classified c session_id,
            histPair.1 ++ [.providerCreate, .providerStartChat full_history,
              .providerSend user_message] ++ persistFx⟩

/-! ## Theorems about the classifier and the history mapping -/

/-- `json.loads` on the empty string fails. -/
theorem jsonLoads_empty : jsonLoads "" = none := rfl

/-- Unfolding the history-replay loop into a filter-then-map. -/
theorem buildHistory_foldl (ts : List Turn) (acc : List ProviderTurn) :
    ts.foldl
      (fun acc m =>
        if m.role = "system" then acc
        else
          acc ++ [⟨if m.role = "assistant" then "model" else m.role,
                   [⟨pyStrip m.content⟩]⟩])
      acc
    = acc ++ (ts.filter (fun t => t.role ≠ "system")).map
        (fun t => ⟨if t.role = "assistant" then "model" else t.role,
                   [⟨pyStrip t.content⟩]⟩) := by
  induction ts generalizing acc with
  | nil => simp
  | cons t ts ih =>
      by_cases h : t.role = "system" <;> simp [h, ih]

/-- Claim C5 (amended): replaying a stored history drops every
`system`-role turn, maps `assistant` to `model` leaving other roles
unchanged, and wraps each turn's content — coerced by
`validate_and_trim_str`, i.e. stripped of surrounding whitespace — as a
single text part `{role, parts: [{text}]}`. -/
theorem C5_history_mapping_amended (ts : List Turn) :
    buildHistory ts
      = (ts.filter (fun t => t.role ≠ "system")).map
          (fun t => ⟨if t.role = "assistant" then "model" else t.role,
                     [⟨pyStrip t.content⟩]⟩) := by
  simpa using buildHistory_foldl ts []

/-- Counterexample to claim C5 as stated: a turn whose content carries
surrounding whitespace is replayed with the *stripped* text `"hi"`, not
with its content `" hi "` wrapped verbatim. -/
theorem C5_history_mapping_cex :
    buildHistory [⟨"user", " hi "⟩] = [⟨"user", [⟨"hi"⟩]⟩] ∧
    ("hi" : String) ≠ " hi " :=
  ⟨rfl, by decide⟩

/-- Claim C2 (amended): for every normalized string `s` —
a JSON mapping with `type == "recipe"` classifies as Recipe carrying the
full parsed mapping; a mapping with `type == "text"` classifies as Text
whose body is the `content` field (or the raw string if `content` is
absent); a **nonempty** string that fails JSON parsing **or parses to
JSON `null`** (which `json.loads` returns as Python `None`) classifies as
PlainFallback carrying the raw string; any other successfully parsed
JSON value classifies as UnknownShape carrying the fixed apology; and
the empty string produces the empty-response error, not a
classification. -/
theorem C2_classifier_amended (s : String) :
    (∀ d, jsonLoads s = some (.jobj d) →
      isStrEq (d.lookup "type") "recipe" = true →
      classify s (pyParsed s) = .recipe s (.jobj d))
  ∧ (∀ d, jsonLoads s = some (.jobj d) →
      isStrEq (d.lookup "type") "recipe" = false →
      isStrEq (d.lookup "type") "text" = true →
      classify s (pyParsed s) = .text ((d.lookup "content").getD (.jstr s)))
  ∧ (s ≠ "" → (jsonLoads s = none ∨ jsonLoads s = some .jnull) →
      classify s (pyParsed s) = .plainFallback s)
  ∧ (∀ v, jsonLoads s = some v → v ≠ .jnull → (∀ d, v ≠ .jobj d) →
      classify s (pyParsed s) = .unknownShape)
  ∧ (∀ d, jsonLoads s = some (.jobj d) →
      isStrEq (d.lookup "type") "recipe" = false →
      isStrEq (d.lookup "type") "text" = false →
      classify s (pyParsed s) = .unknownShape)
  ∧ (s = "" → classify s (pyParsed s) = .emptyResponse) := by
  have hne : ∀ v : JVal, jsonLoads s = some v → s ≠ "" := by
    intro v hv he
    rw [he, jsonLoads_empty] at hv
    exact Option.noConfusion hv
  refine ⟨?_, ?_, ?_, ?_, ?_, ?_⟩
  · intro d hd hr
    have h0 := hne _ hd
    simp [pyParsed, h0, hd, classify, hr]
  · intro d hd hr ht
    have h0 := hne _ hd
    simp [pyParsed, h0, hd, classify, hr, ht]
  · intro h0 hp
    rcases hp with hp | hp <;> simp [pyParsed, h0, hp, classify]
  · intro v hv hnull hobj
    have h0 := hne _ hv
    cases v with
    | jnull => exact absurd rfl hnull
    | jobj d => exact absurd rfl (hobj d)
    | jbool b => simp [pyParsed, h0, hv, classify]
    | jnum raw => simp [pyParsed, h0, hv, classify]
    | jstr t => simp [pyParsed, h0, hv, classify]
    | jarr items => simp [pyParsed, h0, hv, classify]
  · intro d hd hr ht
    have h0 := hne _ hd
    simp [pyParsed, h0, hd, classify, hr, ht]
  · intro h0
    subst h0
    rfl

/-- Counterexample to claim C2 as stated: `"null"` is valid JSON of a
non-mapping shape, so the claim requires UnknownShape with the apology,
but the handler cannot distinguish a parsed JSON `null` (Python `None`)
from a parse failure and returns the raw string as PlainFallback; and the
empty string, which fails JSON parsing, is not classified PlainFallback
but produces the empty-response error. -/
theorem C2_classifier_cex :
    (jsonLoads "null" = some .jnull ∧
      classify "null" (pyParsed "null") = .plainFallback "null") ∧
    classify "" (pyParsed "") = .emptyResponse :=
  ⟨⟨rfl, rfl⟩, rfl⟩

/-- Witness for C2 (amended), covering the recipe, text, plain-fallback
and unknown-shape branches at concrete inputs. -/
theorem C2_classifier_amended_witness :
    classify "\x7b\"type\":\"recipe\",\"title\":\"X\"\x7d"
        (pyParsed "\x7b\"type\":\"recipe\",\"title\":\"X\"\x7d")
      = .recipe "\x7b\"type\":\"recipe\",\"title\":\"X\"\x7d"
          (.jobj [("type", .jstr "recipe"), ("title", .jstr "X")])
  ∧ classify "\x7b\"type\": \"text\", \"content\": \"hi\"\x7d"
        (pyParsed "\x7b\"type\": \"text\", \"content\": \"hi\"\x7d")
      = .text (.jstr "hi")
  ∧ classify "not json" (pyParsed "not json") = .plainFallback "not json"
  ∧ classify "\x7b\"type\":\"other\"\x7d" (pyParsed "\x7b\"type\":\"other\"\x7d")
      = .unknownShape := by
  refine ⟨?_, ?_, ?_, ?_⟩
  · exact (C2_classifier_amended _).1 _ rfl rfl
  · exact (C2_classifier_amended _).2.1
      [("type", .jstr "text"), ("content", .jstr "hi")] rfl rfl rfl
  · exact (C2_classifier_amended _).2.2.1 (by decide) (Or.inl rfl)
  · exact (C2_classifier_amended _).2.2.2.2.1 _ rfl rfl rfl

/-- The status of the classified reply is 200 unless the normalized text
is empty, in which case it is the 500 empty-response error. -/
theorem statusOfClassified_classify (aiText : String) :
    statusOfClassified (classify aiText (pyParsed aiText))
      = if aiText = "" then 500 else 200 := by
  by_cases ha : aiText = ""
  · subst ha; rfl
  · rw [if_neg ha]
    rcases hp : pyParsed aiText with _ | v
    · simp [classify, ha, statusOfClassified]
    · cases v
      all_goals try rfl
      simp only [classify]
      split_ifs <;> rfl

/-- Claim C3 (amended): after a successful provider invocation all four
classification variants report HTTP success (200); an HTTP failure can
also arise — besides provider invocation failures and missing
configuration — when the normalized text is empty, in which case the
handler returns the 500 empty-response error. -/
theorem C3_success_status_amended (db : Option DbLevel) (freshSid : String)
    (message sessionIdField : Option JVal) (aiText : String)
    (hmsg : validate_and_trim_str message ≠ "") :
    (chat true db freshSid (.success aiText) message sessionIdField).status
      = if aiText = "" then 500 else 200 := by
  have h := statusOfClassified_classify aiText
  cases db with
  | none => simpa [chat, hmsg] using h
  | some d => cases d <;> simpa [chat, hmsg, Database.get_conversation] using h

/-- Counterexample to claim C3 as stated: a successful provider
invocation whose response normalizes to the empty string produces HTTP
500 (the empty-response error) even though neither the provider
invocation failed nor configuration was missing. -/
theorem C3_success_status_cex :
    (chat true none "f" (.success "") (some (.jstr "hello")) none).status = 500
  ∧ (chat true none "f" (.success "") (some (.jstr "hello")) none).body
      = .classified .emptyResponse "f" :=
  ⟨rfl, rfl⟩

/-- Witness for C3 (amended): a nonempty normalized string reports 200. -/
theorem C3_success_status_amended_witness :
    (chat true none "f" (.success "ok") (some (.jstr "hello")) none).status = 200 := by
  simpa using C3_success_status_amended none "f" (some (.jstr "hello")) none "ok"
    (by decide)

/-- Claim C6: a `/chat` request whose message is empty or whitespace-only
after trimming is rejected with HTTP 400 and body
`{"error": "Message cannot be empty"}`, with no Session Store operation
and no provider call performed. -/
theorem C6_empty_message_rejected (apiKeySet : Bool) (db : Option DbLevel)
    (freshSid : String) (pe : ProviderEvent) (message sessionIdField : Option JVal)
    (hmsg : validate_and_trim_str message = "") :
    chat apiKeySet db freshSid pe message sessionIdField
      = ⟨400, .err "Message cannot be empty", []⟩ := by
  simp [chat, hmsg]

/-- Witness for C6: a whitespace-only message against a live store and a
configured key is rejected with no effects. -/
theorem C6_empty_message_rejected_witness :
    chat true (some (.collsLive [] [])) "f" (.success "ok")
        (some (.jstr "   ")) none
      = ⟨400, .err "Message cannot be empty", []⟩ :=
  C6_empty_message_rejected true (some (.collsLive [] [])) "f" (.success "ok")
    (some (.jstr "   ")) none rfl

/-- Claim C9 (amended): permission denial at `send_message` returns HTTP
403; permission denial at model creation returns 500, as do model not
found (at creation or send), `start_chat` failure, and any other
provider failure. -/
theorem C9_provider_status_amended (db : Option DbLevel) (freshSid : String)
    (message sessionIdField : Option JVal)
    (hmsg : validate_and_trim_str message ≠ "") :
    (chat true db freshSid (.sendFail .permissionDenied) message sessionIdField).status = 403
  ∧ (chat true db freshSid (.createFail .permissionDenied) message sessionIdField).status = 500
  ∧ (chat true db freshSid (.createFail .notFound) message sessionIdField).status = 500
  ∧ (chat true db freshSid (.createFail .other) message sessionIdField).status = 500
  ∧ (chat true db freshSid .startChatFail message sessionIdField).status = 500
  ∧ (chat true db freshSid (.sendFail .notFound) message sessionIdField).status = 500
  ∧ (chat true db freshSid (.sendFail .other) message sessionIdField).status = 500 := by
  refine ⟨?_, ?_, ?_, ?_, ?_, ?_, ?_⟩ <;>
    cases db with
    | none => simp [chat, hmsg]
    | some d => cases d <;> simp [chat, hmsg, Database.get_conversation]

/-- Counterexample to claim C9 as stated: permission denial at model
creation returns HTTP 500, not 403 (only denial at `send_message` maps
to 403). -/
theorem C9_provider_status_cex :
    (chat true none "f" (.createFail .permissionDenied)
        (some (.jstr "hi")) none).status = 500
  ∧ (chat true none "f" (.createFail .permissionDenied)
        (some (.jstr "hi")) none).status ≠ 403 :=
  ⟨rfl, by decide⟩

/-- Witness for C9 (amended), at a concrete request. -/
theorem C9_provider_status_amended_witness :
    (chat true none "f" (.sendFail .permissionDenied)
        (some (.jstr "hi")) none).status = 403 :=
  (C9_provider_status_amended none "f" (some (.jstr "hi")) none (by decide)).1

/-- Claim C10 (amended): a `/chat` request whose message field is a
non-null, non-string JSON value is not rejected as invalid:
`validate_and_trim_str` coerces it with `str()` and strips it, and the
handler behaves exactly as if that stringified message had been supplied.
A JSON `null` message, however, decodes to Python `None`, is coerced to
`""`, and is rejected with 400. -/
theorem C10_nonstring_message_amended (apiKeySet : Bool) (db : Option DbLevel)
    (freshSid : String) (pe : ProviderEvent) (v : JVal)
    (sessionIdField : Option JVal)
    (hnull : v ≠ .jnull) (hstr : ∀ t, v ≠ .jstr t) :
    chat apiKeySet db freshSid pe (some v) sessionIdField
      = chat apiKeySet db freshSid pe (some (.jstr (pyStrOfJVal v)))
          sessionIdField := by
  have hv : validate_and_trim_str (some v)
      = validate_and_trim_str (some (.jstr (pyStrOfJVal v))) := by
    cases v with
    | jnull => exact absurd rfl hnull
    | jstr t => exact absurd rfl (hstr t)
    | jbool b => rfl
    | jnum raw => rfl
    | jarr items => rfl
    | jobj fields => rfl
  unfold chat
  rw [hv]

/-- Counterexample to claim C10 as stated: the JSON value `null` is a
non-string message value, yet the handler rejects it with 400 as an
empty message instead of proceeding with its stringification. -/
theorem C10_nonstring_message_cex :
    chat true none "f" (.success "ok") (some .jnull) none
      = ⟨400, .err "Message cannot be empty", []⟩ :=
  rfl

/-- Witness for C10 (amended): the number `123` proceeds exactly as the
string `"123"` would, and is not rejected. -/
theorem C10_nonstring_message_amended_witness :
    (chat true none "f" (.success "ok") (some (.jnum "123")) none
      = chat true none "f" (.success "ok") (some (.jstr "123")) none)
  ∧ (chat true none "f" (.success "ok") (some (.jnum "123")) none).status = 200 :=
  ⟨C10_nonstring_message_amended true none "f" (.success "ok") (.jnum "123") none
      (fun h => JVal.noConfusion h) (fun t h => JVal.noConfusion h),
   rfl⟩

/-- Claim C4: whenever the `/chat` handler submits a conversation history
to the Session Store after a successful provider invocation, that history
ends with the user turn (the trimmed message) followed by an assistant
turn whose content is exactly the raw normalized string — regardless of
how the Protocol Classifier classified it. -/
theorem C4_persist_raw_text (apiKeySet : Bool) (db : Option DbLevel)
    (freshSid : String) (message sessionIdField : Option JVal)
    (aiText : String) (sid : String) (l : List Turn)
    (hmem : Effect.saveConversation sid l ∈
      (chat apiKeySet db freshSid (.success aiText) message sessionIdField).effects) :
    ∃ pre, l = pre ++ [⟨"user", validate_and_trim_str message⟩,
                       ⟨"assistant", aiText⟩] := by
  by_cases hm : validate_and_trim_str message = ""
  · simp [chat, hm] at hmem
  · cases apiKeySet with
    | false =>
        cases db with
        | none => simp [chat, hm] at hmem
        | some d => cases d <;> simp [chat, hm, Database.get_conversation] at hmem
    | true =>
        cases db with
        | none => simp [chat, hm] at hmem
        | some d =>
            cases d with
            | collsNone =>
                simp [chat, hm, Database.get_conversation] at hmem
                exact ⟨[], by simp [hmem.2]⟩
            | collsLive convs recipes =>
                simp [chat, hm, Database.get_conversation] at hmem

/-- Witness for C4: with a store whose collections are unavailable, the
handler does call `save_conversation`, and the submitted history ends
with the raw normalized (untrimmed) assistant text. -/
theorem C4_persist_raw_text_witness :
    ∃ pre, [Turn.mk "user" "hi", Turn.mk "assistant" " raw "]
      = pre ++ [⟨"user", validate_and_trim_str (some (.jstr "hi"))⟩,
                ⟨"assistant", " raw "⟩] :=
  C4_persist_raw_text true (some .collsNone) "f" (some (.jstr "hi")) none
    " raw " "f" [⟨"user", "hi"⟩, ⟨"assistant", " raw "⟩] (by decide)

/-- Claim C7 is a code bug: with live collections every call to
`save_recipe` and `get_user_recipes` raises `NotImplementedError` at the
`if not self.recipes:` guard (pymongo collections do not implement truth
testing), and with unavailable collections `save_recipe` returns `None`
without saving — so the save-then-list round trip never holds. -/
theorem C7_recipe_roundtrip_bug :
    Database.save_recipe (.collsLive [] []) "s7" (.jobj [("title", .jstr "X")])
        (fun _ => "id-1") 1
      = .error .notImplementedError
  ∧ Database.get_user_recipes (.collsLive [] []) "s7"
      = .error .notImplementedError
  ∧ Database.save_recipe .collsNone "s7" (.jobj [("title", .jstr "X")])
        (fun _ => "id-1") 1
      = .ok (none, .collsNone) :=
  ⟨rfl, rfl, rfl⟩

/-- Claim C8 is a code bug: no insertion (and hence no duplicate-retry)
is ever performed, because `save_recipe` raises at its availability guard
for a live collection no matter what identifiers the generator would
produce; the insertion logic below the guard (`save_recipe_insert`),
taken in isolation, does retry exactly once — it succeeds with the second
identifier when only the first collides, and gives up (never consulting a
third identifier) when both collide. -/
theorem C8_retry_once_bug :
    (∀ (gen : Nat → String) (now : Nat),
      Database.save_recipe
          (.collsLive [] [⟨"a", "s8", .jobj [("title", .jstr "X")], 0⟩])
          "s8" (.jobj [("title", .jstr "Y")]) gen now
        = .error .notImplementedError)
  ∧ Database.save_recipe_insert [⟨"a", "s8", .jobj [("title", .jstr "X")], 0⟩]
        "s8" (.jobj [("title", .jstr "Y")])
        (fun n => if n = 0 then "a" else "b") 5
      = (some "b", [⟨"a", "s8", .jobj [("title", .jstr "X")], 0⟩,
                    ⟨"b", "s8", .jobj [("title", .jstr "Y")], 5⟩])
  ∧ Database.save_recipe_insert
        [⟨"a", "s8", .jobj [("title", .jstr "X")], 0⟩,
         ⟨"b", "s8", .jobj [("title", .jstr "X")], 1⟩]
        "s8" (.jobj [("title", .jstr "Y")])
        (fun n => if n = 0 then "a" else if n = 1 then "b" else "c") 5
      = (none, [⟨"a", "s8", .jobj [("title", .jstr "X")], 0⟩,
                ⟨"b", "s8", .jobj [("title", .jstr "X")], 1⟩]) :=
  ⟨fun gen now => rfl, rfl, rfl⟩

end ChefByte
